import Mathlib

/-!
Verification of the CASE-Python-CLI DNS-record processor
(`src/case_cli_example/cli.py`) against its natural-language specification.

The program is a linear pipeline: read CSV rows, emit a fixed bundle of RDF
triples per row, serialize the graph, optionally validate it with an external
SHACL checker.  We embed that pipeline shallowly:

* an RDF term is an IRI or a literal with an optional datatype IRI
  (rdflib `URIRef` / `Literal`; `Literal(x)` with no datatype is a plain
  literal, `Literal(x, datatype=...)` a typed one, and rdflib types Python
  booleans as `xsd:boolean`);
* a graph is the list of triples in the order `graph.add` was called, plus the
  namespace bindings (serialization metadata only), mirroring the construction
  order the spec's invariants speak about; with fresh identifiers per row no
  triple is ever added twice, so rdflib's set semantics and the list agree;
* a CSV row (`csv.DictReader` output) is an association list from column names
  to cell strings; reading an absent column raises `KeyError` naming the key,
  embedded as `Except` with the key as the error value;
* the UUID generator `local_uuid` is an abstract stream `gen : Nat -> String`;
  the i-th row of the CSV draws `gen (4*i) .. gen (4*i+3)`;
* fallible external effects (file parsing, ontology fetches, the SHACL run)
  are oracles recorded in small environment structures.
-/

/-- An RDF term: an IRI, or a literal with an optional datatype IRI.
`lit s none` is a plain (untyped) string literal; `lit s (some d)` is typed. -/
inductive RDFTerm where
  | iri : String → RDFTerm
  | lit : String → Option String → RDFTerm
deriving DecidableEq, Repr

/-- One RDF statement, in `graph.add` argument order. -/
structure Triple where
  subj : RDFTerm
  pred : RDFTerm
  obj : RDFTerm
deriving DecidableEq, Repr

/-- The rdflib `Graph`: the triples in insertion order plus the bound
namespace-label/IRI pairs (serialization metadata only). -/
structure RDFGraph where
  bindings : List (String × String)
  triples : List Triple
deriving DecidableEq, Repr

/-- `NS_RDF` from `case_utils.namespace`. -/
def nsRdf : String := "http://www.w3.org/1999/02/22-rdf-syntax-ns#"

/-- `NS_UCO_CORE` from `case_utils.namespace`. -/
def nsUcoCore : String := "https://ontology.unifiedcyberontology.org/uco/core/"

/-- `NS_UCO_OBSERVABLE` from `case_utils.namespace`. -/
def nsUcoObservable : String := "https://ontology.unifiedcyberontology.org/uco/observable/"

/-- `NS_XSD` from `case_utils.namespace`. -/
def nsXsd : String := "http://www.w3.org/2001/XMLSchema#"

/-- `NS_UCO_VOCABULARY`, bound at the top of `process_dns_records`. -/
def nsVocabulary : String := "https://ontology.unifiedcyberontology.org/uco/vocabulary/"

def rdfTypeIri : String := nsRdf ++ "type"
def obsTimeIri : String := nsUcoCore ++ "observationTime"
def recordTypeIri : String := nsUcoObservable ++ "recordType"
def isPassiveDNSIri : String := nsUcoObservable ++ "isPassiveDNS"
def dnsRecordClassIri : String := nsUcoObservable ++ "DNSRecord"
def domainNameFacetClassIri : String := nsUcoObservable ++ "DomainNameFacet"
def ipv4AddressFacetClassIri : String := nsUcoObservable ++ "IPv4AddressFacet"
def relationshipClassIri : String := nsUcoCore ++ "Relationship"
def ucoValueIri : String := nsUcoObservable ++ "value"
def addressValueIri : String := nsUcoObservable ++ "addressValue"
def hasFacetIri : String := nsUcoCore ++ "hasFacet"
def sourceIri : String := nsUcoCore ++ "source"
def targetIri : String := nsUcoCore ++ "target"
def isDirectionalIri : String := nsUcoCore ++ "isDirectional"
def kindOfRelationshipIri : String := nsUcoCore ++ "kindOfRelationship"
def xsdDateTimeIri : String := nsXsd ++ "dateTime"
def xsdBooleanIri : String := nsXsd ++ "boolean"

/-- A parsed CSV row as `csv.DictReader` yields it: column name to cell text. -/
def Row : Type := List (String × String)

/-- `row['k']`: the cell under column `k`, or a `KeyError` carrying `k`. -/
def getField (row : Row) (k : String) : Except String String :=
  match List.lookup k row with
  | some v => Except.ok v
  | none => Except.error k

/-- `ns_kb[f"{tag}{uuid}"]`: a minted node IRI, the namespace IRI followed by
the node-kind tag (hyphen included) and the drawn uuid. -/
def mintId (nsKb tag u : String) : String := nsKb ++ (tag ++ u)

/-- The fixed bundle of statements one loop iteration of `process_dns_records`
adds for a row whose extracted cells are `ts` (timeDateStamp), `dom`
(DomainName) and `ip` (IPv4Address), with `u1 .. u4` the four uuids drawn for
the DNSRecord, DomainNameFacet, IPv4AddressFacet and Relationship nodes, in
the order of the `graph.add` calls. -/
def rowTriples (nsKb u1 u2 u3 u4 ts dom ip : String) : List Triple :=
  let dnsId := RDFTerm.iri (mintId nsKb "DNSRecord-" u1)
  let domId := RDFTerm.iri (mintId nsKb "DomainNameFacet-" u2)
  let ipId := RDFTerm.iri (mintId nsKb "IPv4AddressFacet-" u3)
  let relId := RDFTerm.iri (mintId nsKb "Relationship-" u4)
  [ ⟨dnsId, RDFTerm.iri rdfTypeIri, RDFTerm.iri dnsRecordClassIri⟩,
    ⟨dnsId, RDFTerm.iri obsTimeIri, RDFTerm.lit ts (some xsdDateTimeIri)⟩,
    ⟨dnsId, RDFTerm.iri recordTypeIri, RDFTerm.lit "A" none⟩,
    ⟨dnsId, RDFTerm.iri isPassiveDNSIri, RDFTerm.lit "true" (some xsdBooleanIri)⟩,
    ⟨domId, RDFTerm.iri rdfTypeIri, RDFTerm.iri domainNameFacetClassIri⟩,
    ⟨domId, RDFTerm.iri ucoValueIri, RDFTerm.lit dom none⟩,
    ⟨ipId, RDFTerm.iri rdfTypeIri, RDFTerm.iri ipv4AddressFacetClassIri⟩,
    ⟨ipId, RDFTerm.iri addressValueIri, RDFTerm.lit ip none⟩,
    ⟨dnsId, RDFTerm.iri hasFacetIri, domId⟩,
    ⟨dnsId, RDFTerm.iri hasFacetIri, ipId⟩,
    ⟨relId, RDFTerm.iri rdfTypeIri, RDFTerm.iri relationshipClassIri⟩,
    ⟨relId, RDFTerm.iri sourceIri, domId⟩,
    ⟨relId, RDFTerm.iri targetIri, ipId⟩,
    ⟨relId, RDFTerm.iri isDirectionalIri, RDFTerm.lit "true" (some xsdBooleanIri)⟩,
    ⟨relId, RDFTerm.iri kindOfRelationshipIri, RDFTerm.lit "Resolved_To" none⟩ ]

/-- One loop iteration of `process_dns_records` on one row: the three cell
reads, in the order the source performs them (`timeDateStamp`, then
`DomainName`, then `IPv4Address`; the `core:kindOfRelationship` column is
never read), then the fifteen `graph.add` calls.  A missing column propagates
the `KeyError` naming it. -/
def map_row (nsKb u1 u2 u3 u4 : String) (row : Row) : Except String (List Triple) := do
  let ts ← getField row "observable:timeDateStamp"
  let dom ← getField row "observable:DomainName"
  let ip ← getField row "observable:IPv4Address"
  Except.ok (rowTriples nsKb u1 u2 u3 u4 ts dom ip)

/-- The row loop of `process_dns_records`: rows in order, row `j` drawing
uuids `gen (4*j) .. gen (4*j+3)`; the first missing column aborts the run. -/
def processRows (nsKb : String) (gen : Nat → String) (j : Nat) :
    List Row → Except String (List Triple)
  | [] => Except.ok []
  | r :: rs => do
    let t ← map_row nsKb (gen (4*j)) (gen (4*j+1)) (gen (4*j+2)) (gen (4*j+3)) r
    let rest ← processRows nsKb gen (j+1) rs
    Except.ok (t ++ rest)

/-- `process_dns_records(csv_file, ns_kb, graph)`: binds the vocabulary
namespace, then folds every row's statements into the graph.  `rows` is the
parsed content of the CSV file and `gen` the `local_uuid` stream. -/
def process_dns_records (rows : List Row) (nsKb : String) (g : RDFGraph)
    (gen : Nat → String) : Except String RDFGraph := do
  let g1 : RDFGraph := { g with bindings := g.bindings ++ [("vocabulary", nsVocabulary)] }
  let ts ← processRows nsKb gen 0 rows
  Except.ok { g1 with triples := g1.triples ++ ts }

instance exceptDecEq {ε α : Type} [DecidableEq ε] [DecidableEq α] :
    DecidableEq (Except ε α) := fun a b =>
  match a, b with
  | Except.ok x, Except.ok y =>
    if h : x = y then isTrue (by rw [h]) else isFalse (by intro he; cases he; exact h rfl)
  | Except.error x, Except.error y =>
    if h : x = y then isTrue (by rw [h]) else isFalse (by intro he; cases he; exact h rfl)
  | Except.ok _, Except.error _ => isFalse (by intro he; cases he)
  | Except.error _, Except.ok _ => isFalse (by intro he; cases he)

/-- The four node-kind tags of the minting f-strings, in drawing order within
a row: uuid `4*j + r` of the stream is spent on the tag `tagOf r` node of row
`j`. -/
def tagOf : Nat → String
  | 0 => "DNSRecord-"
  | 1 => "DomainNameFacet-"
  | 2 => "IPv4AddressFacet-"
  | _ => "Relationship-"

/-- The identifier minted with the `m`-th uuid of the stream. -/
def mintAt (nsKb : String) (gen : Nat → String) (m : Nat) : String :=
  mintId nsKb (tagOf (m % 4)) (gen m)

/-- The four node identifiers one row mints, in drawing order. -/
def rowIds (nsKb u1 u2 u3 u4 : String) : List String :=
  [mintId nsKb "DNSRecord-" u1, mintId nsKb "DomainNameFacet-" u2,
   mintId nsKb "IPv4AddressFacet-" u3, mintId nsKb "Relationship-" u4]

/-- All node identifiers minted over the first `n` rows, in drawing order. -/
def mintedIds (nsKb : String) (gen : Nat → String) (n : Nat) : List String :=
  (List.range n).flatMap fun j =>
    rowIds nsKb (gen (4*j)) (gen (4*j+1)) (gen (4*j+2)) (gen (4*j+3))

/-- The outcomes of the fallible external operations `validate_case_output`
performs, in the order the source performs them: parsing the written output
file as JSON-LD, fetching and parsing `core.ttl` and then `observable.ttl`,
and running `pyshacl.validate` (which either raises or returns the
`conforms` boolean).  Each `Except.error` stands for a raised exception. -/
structure ValidationEnv where
  dataParse : Except String Unit
  coreFetch : Except String Unit
  observableFetch : Except String Unit
  shaclRun : Except String Bool
deriving DecidableEq, Repr

/-- `validate_case_output(output_file)`.  The whole body sits in a
`try/except Exception` returning `False`; inside it, each ontology fetch sits
in its own `try/except` whose handler `return False`s; on a completed
`pyshacl.validate` call the `conforms` flag is returned. -/
def validate_case_output (env : ValidationEnv) : Bool :=
  match env.dataParse with
  | Except.error _ => false
  | Except.ok _ =>
    match env.coreFetch with
    | Except.error _ => false
    | Except.ok _ =>
      match env.observableFetch with
      | Except.error _ => false
      | Except.ok _ =>
        match env.shaclRun with
        | Except.error _ => false
        | Except.ok conforms => conforms

/-- The parsed command line of `main`.  `outputFormat` is `none` when
`--output-format` was not given; `rows` (the CSV content) and the
format-guesser are passed to `runMain` separately. -/
structure Args where
  kbLabel : String
  kbIri : String
  outputFormat : Option String
  outGraph : String
  dnsCsv : String
  validate : Bool
deriving Repr

/-- `(guess_format(out_graph) if args.output_format is None else
args.output_format) or "json-ld"`: Python's `or` takes the right operand when
the left is falsy, i.e. `None` or the empty string. -/
def determineFormat (outputFormat guessed : Option String) : String :=
  match (match outputFormat with | none => guessed | some s => some s) with
  | none => "json-ld"
  | some s => if s = "" then "json-ld" else s

/-- The prefix bindings `main` installs on the fresh graph, in order. -/
def initialBindings (kbLabel kbIri : String) : List (String × String) :=
  [(kbLabel, kbIri), ("uco-core", nsUcoCore), ("uco-observable", nsUcoObservable),
   ("xsd", nsXsd)]

/-- What a run of `main` is observed to do: the serialized artifact (the
graph and the chosen format, written to `out_graph`), the process exit
status, and the uncaught exception's payload when one aborts the run. -/
structure RunResult where
  written : Option (RDFGraph × String)
  exitCode : Nat
  err : Option String
deriving Repr

/-- `main()`: build the empty graph with its bindings, process the CSV rows,
serialize, then validate on request.  An exception out of row processing
leaves the process with a traceback and exit status 1 and nothing serialized;
`--validate` with a failed or unperformable validation calls `sys.exit(1)`
after the file was written.  `guessFn` stands for `rdflib.util.guess_format`
and `venv` for the external effects of `validate_case_output`. -/
def runMain (a : Args) (gen : Nat → String) (rows : List Row)
    (guessFn : String → Option String) (venv : ValidationEnv) : RunResult :=
  let g0 : RDFGraph := { bindings := initialBindings a.kbLabel a.kbIri, triples := [] }
  match process_dns_records rows a.kbIri g0 gen with
  | Except.error e => { written := none, exitCode := 1, err := some e }
  | Except.ok g =>
    let fmt := determineFormat a.outputFormat (guessFn a.outGraph)
    if a.validate then
      if validate_case_output venv then
        { written := some (g, fmt), exitCode := 0, err := none }
      else
        { written := some (g, fmt), exitCode := 1, err := none }
    else
      { written := some (g, fmt), exitCode := 0, err := none }
/-- The four CSV columns the docstring of `process_dns_records` requires. -/
def requiredFields : List String :=
  ["observable:DomainName", "core:kindOfRelationship", "observable:IPv4Address",
   "observable:timeDateStamp"]

/-- The columns the loop body actually subscripts, in access order;
`core:kindOfRelationship` is not among them. -/
def accessedFields : List String :=
  ["observable:timeDateStamp", "observable:DomainName", "observable:IPv4Address"]

/-- The statements of a run whose rows had the extracted cell values `vals`
(timeDateStamp, DomainName, IPv4Address per row), starting at row index `j`:
the successful-run shape of `processRows`. -/
def rowsOut (nsKb : String) (gen : Nat → String) (j : Nat) :
    List (String × String × String) → List Triple
  | [] => []
  | v :: vs =>
    rowTriples nsKb (gen (4*j)) (gen (4*j+1)) (gen (4*j+2)) (gen (4*j+3))
        v.1 v.2.1 v.2.2 ++
      rowsOut nsKb gen (j+1) vs

/-! ### Concrete fixtures (inputs used by the witness and counterexample
theorems) -/

/-- A concrete uuid stream: distinct decimal numerals. -/
def gen0 : Nat → String := fun n => toString n

/-- The spec's example row, all four columns present. -/
def row0 : Row :=
  [("observable:DomainName", "evil.org"), ("core:kindOfRelationship", "resolves to"),
   ("observable:IPv4Address", "203.0.113.5"),
   ("observable:timeDateStamp", "2024-01-15T10:30:00Z")]

/-- A second well-formed row. -/
def row1 : Row :=
  [("observable:DomainName", "alpha.org"), ("core:kindOfRelationship", "resolves to"),
   ("observable:IPv4Address", "203.0.113.6"),
   ("observable:timeDateStamp", "2024-01-16T10:30:00Z")]

/-- `row0` with a different relationship-kind cell. -/
def row0kindB : Row :=
  [("observable:DomainName", "evil.org"), ("core:kindOfRelationship", "maps onto"),
   ("observable:IPv4Address", "203.0.113.5"),
   ("observable:timeDateStamp", "2024-01-15T10:30:00Z")]

/-- A row whose CSV lacks the `core:kindOfRelationship` column. -/
def rowMissingKind : Row :=
  [("observable:DomainName", "evil.org"), ("observable:IPv4Address", "203.0.113.5"),
   ("observable:timeDateStamp", "2024-01-15T10:30:00Z")]

/-- A row whose CSV lacks the `observable:timeDateStamp` column. -/
def rowMissingTime : Row :=
  [("observable:DomainName", "evil.org"), ("core:kindOfRelationship", "resolves to"),
   ("observable:IPv4Address", "203.0.113.5")]

/-- A default command line: no `--output-format`, no `--validate`. -/
def args0 : Args :=
  { kbLabel := "kb", kbIri := "http://example.org/kb/", outputFormat := none,
    outGraph := "output.json", dnsCsv := "data/domain-ip-res.csv", validate := false }

/-- `args0` with `--output-format ""` (the flag given an empty value). -/
def argsEmptyFmt : Args := { args0 with outputFormat := some "" }

/-- `args0` with `--validate`. -/
def argsValidate : Args := { args0 with validate := true }

/-- An environment where every external validation step succeeds. -/
def venvAllOk : ValidationEnv :=
  { dataParse := Except.ok (), coreFetch := Except.ok (), observableFetch := Except.ok (),
    shaclRun := Except.ok true }

/-- An environment where fetching `core.ttl` fails (network error). -/
def venvNetFail : ValidationEnv :=
  { venvAllOk with coreFetch := Except.error "connection refused" }

/-- `guess_format` finding nothing for the output path. -/
def noGuess : String → Option String := fun _ => none

/-- `guess_format` recognizing the output path as Turtle. -/
def turtleGuess : String → Option String := fun _ => some "turtle"

/-- The statements `row0` yields under `gen0` as the first row. -/
def out0 : List Triple :=
  rowTriples "http://example.org/kb/" "0" "1" "2" "3" "2024-01-15T10:30:00Z"
    "evil.org" "203.0.113.5"

/-! ## Minted-identifier lemmas -/

lemma mintId_eq_iff (ns t1 t2 u v : String) :
    mintId ns t1 u = mintId ns t2 v ↔ t1.data ++ u.data = t2.data ++ v.data := by
  unfold mintId
  rw [String.ext_iff, String.data_append, String.data_append, String.data_append,
    String.data_append]
  exact ⟨fun h => List.append_cancel_left h, fun h => by rw [h]⟩

lemma mintId_inj_right (ns t u v : String) (h : mintId ns t u = mintId ns t v) :
    u = v := by
  rw [mintId_eq_iff] at h
  exact String.ext (List.append_cancel_left h)

lemma mintId_ne_of_char1 (ns u v t1 t2 : String) (h1 : 1 < t1.data.length)
    (h2 : 1 < t2.data.length) (hc : t1.data[1]? ≠ t2.data[1]?) :
    mintId ns t1 u ≠ mintId ns t2 v := by
  intro h
  rw [mintId_eq_iff] at h
  have e1 : (t1.data ++ u.data)[1]? = t1.data[1]? := List.getElem?_append_left h1
  have e2 : (t2.data ++ v.data)[1]? = t2.data[1]? := List.getElem?_append_left h2
  rw [h, e2] at e1
  exact hc e1.symm

lemma tagOf_char1 : ∀ r1, r1 < 4 → ∀ r2, r2 < 4 → r1 ≠ r2 →
    (tagOf r1).data[1]? ≠ (tagOf r2).data[1]? := by decide

lemma tagOf_long : ∀ r, r < 4 → 1 < (tagOf r).data.length := by decide

lemma mintId_tag_ne (ns u v : String) (r1 r2 : Nat) (h1 : r1 < 4) (h2 : r2 < 4)
    (hne : r1 ≠ r2) : mintId ns (tagOf r1) u ≠ mintId ns (tagOf r2) v :=
  mintId_ne_of_char1 ns u v _ _ (tagOf_long r1 h1) (tagOf_long r2 h2)
    (tagOf_char1 r1 h1 r2 h2 hne)

lemma mintAt_inj (nsKb : String) (gen : Nat → String) (N : Nat)
    (hgen : ∀ i, i < N → ∀ j, j < N → gen i = gen j → i = j)
    (m1 m2 : Nat) (h1 : m1 < N) (h2 : m2 < N)
    (h : mintAt nsKb gen m1 = mintAt nsKb gen m2) : m1 = m2 := by
  by_cases hmod : m1 % 4 = m2 % 4
  · rw [mintAt, mintAt, hmod] at h
    exact hgen m1 h1 m2 h2 (mintId_inj_right _ _ _ _ h)
  · exact absurd h
      (mintId_tag_ne _ _ _ _ _ (Nat.mod_lt _ (by norm_num)) (Nat.mod_lt _ (by norm_num)) hmod)

lemma mintedIds_eq_map (nsKb : String) (gen : Nat → String) (n : Nat) :
    mintedIds nsKb gen n = (List.range (4*n)).map (mintAt nsKb gen) := by
  induction n with
  | zero => rfl
  | succ n ih =>
    have h4 : 4*(n+1) = ((((4*n).succ).succ).succ).succ := by omega
    rw [mintedIds, List.range_succ, List.flatMap_append, ← mintedIds, ih, h4,
      List.range_succ, List.range_succ, List.range_succ, List.range_succ]
    simp only [List.map_append, List.append_assoc, List.flatMap_cons, List.flatMap_nil,
      List.append_nil, List.map_cons, List.map_nil]
    congr 1
    have m0 : (4*n) % 4 = 0 := by omega
    have m1 : (4*n+1) % 4 = 1 := by omega
    have m2 : (4*n+2) % 4 = 2 := by omega
    have m3 : (4*n+3) % 4 = 3 := by omega
    simp only [rowIds, mintAt, m0, m1, m2, m3, Nat.succ_eq_add_one]
    norm_num [tagOf]

lemma mintedIds_nodup (nsKb : String) (gen : Nat → String) (n : Nat)
    (hgen : ∀ i, i < 4*n → ∀ j, j < 4*n → gen i = gen j → i = j) :
    (mintedIds nsKb gen n).Nodup := by
  rw [mintedIds_eq_map]
  refine List.Nodup.map_on ?_ (List.nodup_range _)
  intro x hx y hy hxy
  exact mintAt_inj nsKb gen (4*n) hgen x y (List.mem_range.mp hx) (List.mem_range.mp hy) hxy

lemma mintedIds_length (nsKb : String) (gen : Nat → String) (n : Nat) :
    (mintedIds nsKb gen n).length = 4*n := by
  rw [mintedIds_eq_map, List.length_map, List.length_range]

/-! ## Inversion lemmas for the row loop -/

lemma except_bind_ok {ε α β : Type} (a : α) (f : α → Except ε β) :
    (Except.ok a >>= f) = f a := rfl

lemma except_bind_error {ε α β : Type} (e : ε) (f : α → Except ε β) :
    ((Except.error e : Except ε α) >>= f) = Except.error e := rfl

lemma getField_ok_iff (row : Row) (k v : String) :
    getField row k = Except.ok v ↔ List.lookup k row = some v := by
  unfold getField
  cases List.lookup k row <;> simp

lemma getField_error_iff (row : Row) (k e : String) :
    getField row k = Except.error e ↔ (List.lookup k row = none ∧ e = k) := by
  unfold getField
  cases List.lookup k row <;> simp [eq_comm]

lemma map_row_ok_iff (nsKb u1 u2 u3 u4 : String) (row : Row) (l : List Triple) :
    map_row nsKb u1 u2 u3 u4 row = Except.ok l ↔
      ∃ a b c, List.lookup "observable:timeDateStamp" row = some a ∧
        List.lookup "observable:DomainName" row = some b ∧
        List.lookup "observable:IPv4Address" row = some c ∧
        l = rowTriples nsKb u1 u2 u3 u4 a b c := by
  unfold map_row getField
  cases List.lookup "observable:timeDateStamp" row <;>
    cases List.lookup "observable:DomainName" row <;>
      cases List.lookup "observable:IPv4Address" row <;>
        simp [except_bind_ok, except_bind_error, eq_comm]

lemma map_row_error_mem (nsKb u1 u2 u3 u4 : String) (row : Row) (e : String)
    (h : map_row nsKb u1 u2 u3 u4 row = Except.error e) :
    e ∈ accessedFields ∧ List.lookup e row = none := by
  unfold map_row getField at h
  unfold accessedFields
  cases h1 : List.lookup "observable:timeDateStamp" row <;> rw [h1] at h <;>
    cases h2 : List.lookup "observable:DomainName" row <;> rw [h2] at h <;>
      cases h3 : List.lookup "observable:IPv4Address" row <;> rw [h3] at h <;>
        simp [except_bind_ok, except_bind_error] at h <;> subst h <;> simp [h1, h2, h3]

lemma getField_of_some (row : Row) (k v : String)
    (h : List.lookup k row = some v) : getField row k = Except.ok v :=
  (getField_ok_iff row k v).mpr h

lemma getField_of_none (row : Row) (k : String)
    (h : List.lookup k row = none) : getField row k = Except.error k :=
  (getField_error_iff row k k).mpr ⟨h, rfl⟩

lemma map_row_error_of_missing (nsKb u1 u2 u3 u4 : String) (row : Row)
    (h : ∃ f ∈ accessedFields, List.lookup f row = none) :
    ∃ e, map_row nsKb u1 u2 u3 u4 row = Except.error e := by
  obtain ⟨f, hf, hnone⟩ := h
  fin_cases hf
  · exact ⟨_, by unfold map_row; rw [getField_of_none _ _ hnone, except_bind_error]⟩
  · cases h1 : List.lookup "observable:timeDateStamp" row with
    | none =>
      exact ⟨_, by unfold map_row; rw [getField_of_none _ _ h1, except_bind_error]⟩
    | some a =>
      exact ⟨_, by
        unfold map_row
        rw [getField_of_some _ _ _ h1, except_bind_ok, getField_of_none _ _ hnone,
          except_bind_error]⟩
  · cases h1 : List.lookup "observable:timeDateStamp" row with
    | none =>
      exact ⟨_, by unfold map_row; rw [getField_of_none _ _ h1, except_bind_error]⟩
    | some a =>
      cases h2 : List.lookup "observable:DomainName" row with
      | none =>
        exact ⟨_, by
          unfold map_row
          rw [getField_of_some _ _ _ h1, except_bind_ok, getField_of_none _ _ h2,
            except_bind_error]⟩
      | some b =>
        exact ⟨_, by
          unfold map_row
          rw [getField_of_some _ _ _ h1, except_bind_ok, getField_of_some _ _ _ h2,
            except_bind_ok, getField_of_none _ _ hnone, except_bind_error]⟩

lemma processRows_nil (nsKb : String) (gen : Nat → String) (j : Nat) :
    processRows nsKb gen j [] = Except.ok [] := rfl

lemma processRows_ok_shape (nsKb : String) (gen : Nat → String) :
    ∀ (rows : List Row) (j : Nat) (ts : List Triple),
      processRows nsKb gen j rows = Except.ok ts →
      ∃ vals : List (String × String × String),
        vals.length = rows.length ∧ ts = rowsOut nsKb gen j vals := by
  intro rows
  induction rows with
  | nil =>
    intro j ts h
    rw [processRows_nil] at h
    exact ⟨[], rfl, by cases h; rfl⟩
  | cons r rs ih =>
    intro j ts h
    rw [processRows] at h
    cases hm : map_row nsKb (gen (4*j)) (gen (4*j+1)) (gen (4*j+2)) (gen (4*j+3)) r with
    | error e => rw [hm, except_bind_error] at h; cases h
    | ok t =>
      rw [hm, except_bind_ok] at h
      cases hr : processRows nsKb gen (j+1) rs with
      | error e => rw [hr, except_bind_error] at h; cases h
      | ok rest =>
        rw [hr, except_bind_ok] at h
        cases h
        obtain ⟨a, b, c, _, _, _, hrow⟩ := (map_row_ok_iff _ _ _ _ _ _ _).mp hm
        obtain ⟨vals, hlen, hout⟩ := ih (j+1) rest hr
        exact ⟨(a, b, c) :: vals, by simp [hlen], by rw [rowsOut, hrow, hout]⟩

lemma processRows_error_mem (nsKb : String) (gen : Nat → String) :
    ∀ (rows : List Row) (j : Nat) (e : String),
      processRows nsKb gen j rows = Except.error e →
      e ∈ accessedFields ∧ ∃ r ∈ rows, List.lookup e r = none := by
  intro rows
  induction rows with
  | nil => intro j e h; rw [processRows_nil] at h; cases h
  | cons r rs ih =>
    intro j e h
    rw [processRows] at h
    cases hm : map_row nsKb (gen (4*j)) (gen (4*j+1)) (gen (4*j+2)) (gen (4*j+3)) r with
    | error e' =>
      rw [hm, except_bind_error] at h
      cases h
      obtain ⟨hf, hnone⟩ := map_row_error_mem _ _ _ _ _ _ _ hm
      exact ⟨hf, r, List.mem_cons_self r rs, hnone⟩
    | ok t =>
      rw [hm, except_bind_ok] at h
      cases hr : processRows nsKb gen (j+1) rs with
      | error e' =>
        rw [hr, except_bind_error] at h
        cases h
        obtain ⟨hf, r', hr', hnone⟩ := ih (j+1) e hr
        exact ⟨hf, r', List.mem_cons_of_mem r hr', hnone⟩
      | ok rest => rw [hr, except_bind_ok] at h; cases h

lemma processRows_error_of_missing (nsKb : String) (gen : Nat → String) :
    ∀ (rows : List Row) (j : Nat),
      (∃ r ∈ rows, ∃ f ∈ accessedFields, List.lookup f r = none) →
      ∃ e, processRows nsKb gen j rows = Except.error e := by
  intro rows
  induction rows with
  | nil => intro j h; simp at h
  | cons r rs ih =>
    intro j h
    rw [processRows]
    cases hm : map_row nsKb (gen (4*j)) (gen (4*j+1)) (gen (4*j+2)) (gen (4*j+3)) r with
    | error e' => exact ⟨e', by rw [except_bind_error]⟩
    | ok t =>
      rw [except_bind_ok]
      have hr : ∃ r' ∈ rs, ∃ f ∈ accessedFields, List.lookup f r' = none := by
        obtain ⟨r', hmem, f, hf, hnone⟩ := h
        rcases List.mem_cons.mp hmem with heq | htail
        · subst heq
          obtain ⟨e, he⟩ := map_row_error_of_missing nsKb _ _ _ _ r' ⟨f, hf, hnone⟩
          rw [he] at hm; cases hm
        · exact ⟨r', htail, f, hf, hnone⟩
      obtain ⟨e, he⟩ := ih (j+1) hr
      exact ⟨e, by rw [he, except_bind_error]⟩

/-! ## Shape of a successful run -/

lemma rowTriples_subj (nsKb u1 u2 u3 u4 a b c : String) :
    ∀ tr ∈ rowTriples nsKb u1 u2 u3 u4 a b c,
      tr.subj = RDFTerm.iri (mintId nsKb "DNSRecord-" u1) ∨
      tr.subj = RDFTerm.iri (mintId nsKb "DomainNameFacet-" u2) ∨
      tr.subj = RDFTerm.iri (mintId nsKb "IPv4AddressFacet-" u3) ∨
      tr.subj = RDFTerm.iri (mintId nsKb "Relationship-" u4) := by
  intro tr h
  simp only [rowTriples, List.mem_cons, List.not_mem_nil, or_false] at h
  rcases h with h|h|h|h|h|h|h|h|h|h|h|h|h|h|h <;> subst h <;> simp

lemma mintAt_4i (ns : String) (gen : Nat → String) (i : Nat) :
    mintAt ns gen (4*i) = mintId ns "DNSRecord-" (gen (4*i)) := by
  rw [mintAt, show (4*i) % 4 = 0 by omega]; rfl

lemma mintAt_4i1 (ns : String) (gen : Nat → String) (i : Nat) :
    mintAt ns gen (4*i+1) = mintId ns "DomainNameFacet-" (gen (4*i+1)) := by
  rw [mintAt, show (4*i+1) % 4 = 1 by omega]; rfl

lemma mintAt_4i2 (ns : String) (gen : Nat → String) (i : Nat) :
    mintAt ns gen (4*i+2) = mintId ns "IPv4AddressFacet-" (gen (4*i+2)) := by
  rw [mintAt, show (4*i+2) % 4 = 2 by omega]; rfl

lemma mintAt_4i3 (ns : String) (gen : Nat → String) (i : Nat) :
    mintAt ns gen (4*i+3) = mintId ns "Relationship-" (gen (4*i+3)) := by
  rw [mintAt, show (4*i+3) % 4 = 3 by omega]; rfl

lemma rowsOut_subj (nsKb : String) (gen : Nat → String) :
    ∀ (vals : List (String × String × String)) (j : Nat),
      ∀ tr ∈ rowsOut nsKb gen j vals,
        ∃ m, 4*j ≤ m ∧ m < 4*(j + vals.length) ∧
          tr.subj = RDFTerm.iri (mintAt nsKb gen m) := by
  intro vals
  induction vals with
  | nil => intro j tr h; simp [rowsOut] at h
  | cons v vs ih =>
    intro j tr h
    rw [rowsOut] at h
    rcases List.mem_append.mp h with hh | ht
    · rcases rowTriples_subj _ _ _ _ _ _ _ _ tr hh with h1|h1|h1|h1
      · exact ⟨4*j, le_refl _, by simp only [List.length_cons]; omega,
          by rw [h1, mintAt_4i]⟩
      · exact ⟨4*j+1, by omega, by simp only [List.length_cons]; omega,
          by rw [h1, mintAt_4i1]⟩
      · exact ⟨4*j+2, by omega, by simp only [List.length_cons]; omega,
          by rw [h1, mintAt_4i2]⟩
      · exact ⟨4*j+3, by omega, by simp only [List.length_cons]; omega,
          by rw [h1, mintAt_4i3]⟩
    · obtain ⟨m, hm1, hm2, hm3⟩ := ih (j+1) tr ht
      exact ⟨m, by omega, by simp only [List.length_cons] at hm2 ⊢; omega, hm3⟩

lemma rowsOut_length (nsKb : String) (gen : Nat → String) :
    ∀ (vals : List (String × String × String)) (j : Nat),
      (rowsOut nsKb gen j vals).length = 15 * vals.length := by
  intro vals
  induction vals with
  | nil => intro j; rfl
  | cons v vs ih =>
    intro j
    rw [rowsOut, List.length_append, ih (j+1)]
    simp only [rowTriples, List.length_cons, List.length_nil]
    ring

lemma rowsOut_decomp (nsKb : String) (gen : Nat → String) :
    ∀ (vals : List (String × String × String)) (j i : Nat) (h : i < vals.length),
      rowsOut nsKb gen j vals =
        rowsOut nsKb gen j (vals.take i) ++
        rowTriples nsKb (gen (4*(j+i))) (gen (4*(j+i)+1)) (gen (4*(j+i)+2))
          (gen (4*(j+i)+3)) (vals.get ⟨i, h⟩).1 (vals.get ⟨i, h⟩).2.1
          (vals.get ⟨i, h⟩).2.2 ++
        rowsOut nsKb gen (j+i+1) (vals.drop (i+1)) := by
  intro vals
  induction vals with
  | nil => intro j i h; simp at h
  | cons v vs ih =>
    intro j i h
    cases i with
    | zero =>
      simp only [List.take_zero, List.drop_one, List.get, rowsOut, List.nil_append,
        Nat.add_zero, List.drop_succ_cons, List.drop_zero]
    | succ i =>
      have hi : i < vs.length := by simpa using h
      have step := ih (j+1) i hi
      rw [show j+1+i = j+(i+1) from by omega] at step
      simp only [List.take_succ_cons, List.drop_succ_cons, List.get, rowsOut]
      rw [step]
      simp only [List.append_assoc]

/-! ## Row-local facts -/

lemma row_filter_hasFacet (nsKb u1 u2 u3 u4 a b c : String) :
    (rowTriples nsKb u1 u2 u3 u4 a b c).filter
      (fun tr => decide (tr.subj = RDFTerm.iri (mintId nsKb "DNSRecord-" u1) ∧
        tr.pred = RDFTerm.iri hasFacetIri)) =
      [⟨RDFTerm.iri (mintId nsKb "DNSRecord-" u1), RDFTerm.iri hasFacetIri,
        RDFTerm.iri (mintId nsKb "DomainNameFacet-" u2)⟩,
       ⟨RDFTerm.iri (mintId nsKb "DNSRecord-" u1), RDFTerm.iri hasFacetIri,
        RDFTerm.iri (mintId nsKb "IPv4AddressFacet-" u3)⟩] := by
  have hd : mintId nsKb "DomainNameFacet-" u2 ≠ mintId nsKb "DNSRecord-" u1 :=
    mintId_tag_ne nsKb u2 u1 1 0 (by norm_num) (by norm_num) (by norm_num)
  have hi : mintId nsKb "IPv4AddressFacet-" u3 ≠ mintId nsKb "DNSRecord-" u1 :=
    mintId_tag_ne nsKb u3 u1 2 0 (by norm_num) (by norm_num) (by norm_num)
  have hr : mintId nsKb "Relationship-" u4 ≠ mintId nsKb "DNSRecord-" u1 :=
    mintId_tag_ne nsKb u4 u1 3 0 (by norm_num) (by norm_num) (by norm_num)
  have q1 : rdfTypeIri ≠ hasFacetIri := by decide
  have q2 : obsTimeIri ≠ hasFacetIri := by decide
  have q3 : recordTypeIri ≠ hasFacetIri := by decide
  have q4 : isPassiveDNSIri ≠ hasFacetIri := by decide
  have q5 : ucoValueIri ≠ hasFacetIri := by decide
  have q6 : addressValueIri ≠ hasFacetIri := by decide
  have q7 : sourceIri ≠ hasFacetIri := by decide
  have q8 : targetIri ≠ hasFacetIri := by decide
  have q9 : isDirectionalIri ≠ hasFacetIri := by decide
  have q10 : kindOfRelationshipIri ≠ hasFacetIri := by decide
  simp [rowTriples, List.filter_cons, hd, hi, hr, q1, q2, q3, q4, q5, q6, q7, q8, q9, q10]

lemma row_filter_source (nsKb u1 u2 u3 u4 a b c : String) :
    (rowTriples nsKb u1 u2 u3 u4 a b c).filter
      (fun tr => decide (tr.subj = RDFTerm.iri (mintId nsKb "Relationship-" u4) ∧
        tr.pred = RDFTerm.iri sourceIri)) =
      [⟨RDFTerm.iri (mintId nsKb "Relationship-" u4), RDFTerm.iri sourceIri,
        RDFTerm.iri (mintId nsKb "DomainNameFacet-" u2)⟩] := by
  have hd : mintId nsKb "DNSRecord-" u1 ≠ mintId nsKb "Relationship-" u4 :=
    mintId_tag_ne nsKb u1 u4 0 3 (by norm_num) (by norm_num) (by norm_num)
  have hi : mintId nsKb "DomainNameFacet-" u2 ≠ mintId nsKb "Relationship-" u4 :=
    mintId_tag_ne nsKb u2 u4 1 3 (by norm_num) (by norm_num) (by norm_num)
  have hr : mintId nsKb "IPv4AddressFacet-" u3 ≠ mintId nsKb "Relationship-" u4 :=
    mintId_tag_ne nsKb u3 u4 2 3 (by norm_num) (by norm_num) (by norm_num)
  have q1 : rdfTypeIri ≠ sourceIri := by decide
  have q2 : targetIri ≠ sourceIri := by decide
  have q3 : isDirectionalIri ≠ sourceIri := by decide
  have q4 : kindOfRelationshipIri ≠ sourceIri := by decide
  simp [rowTriples, List.filter_cons, hd, hi, hr, q1, q2, q3, q4]

lemma row_filter_target (nsKb u1 u2 u3 u4 a b c : String) :
    (rowTriples nsKb u1 u2 u3 u4 a b c).filter
      (fun tr => decide (tr.subj = RDFTerm.iri (mintId nsKb "Relationship-" u4) ∧
        tr.pred = RDFTerm.iri targetIri)) =
      [⟨RDFTerm.iri (mintId nsKb "Relationship-" u4), RDFTerm.iri targetIri,
        RDFTerm.iri (mintId nsKb "IPv4AddressFacet-" u3)⟩] := by
  have hd : mintId nsKb "DNSRecord-" u1 ≠ mintId nsKb "Relationship-" u4 :=
    mintId_tag_ne nsKb u1 u4 0 3 (by norm_num) (by norm_num) (by norm_num)
  have hi : mintId nsKb "DomainNameFacet-" u2 ≠ mintId nsKb "Relationship-" u4 :=
    mintId_tag_ne nsKb u2 u4 1 3 (by norm_num) (by norm_num) (by norm_num)
  have hr : mintId nsKb "IPv4AddressFacet-" u3 ≠ mintId nsKb "Relationship-" u4 :=
    mintId_tag_ne nsKb u3 u4 2 3 (by norm_num) (by norm_num) (by norm_num)
  have q1 : rdfTypeIri ≠ targetIri := by decide
  have q2 : sourceIri ≠ targetIri := by decide
  have q3 : isDirectionalIri ≠ targetIri := by decide
  have q4 : kindOfRelationshipIri ≠ targetIri := by decide
  simp [rowTriples, List.filter_cons, hd, hi, hr, q1, q2, q3, q4]

lemma filter_eq_nil_of_subj_ne (l : List Triple) (S P : RDFTerm)
    (h : ∀ tr ∈ l, tr.subj ≠ S) :
    l.filter (fun tr => decide (tr.subj = S ∧ tr.pred = P)) = [] := by
  refine List.filter_eq_nil_iff.mpr ?_
  intro tr htr
  simp only [decide_eq_true_eq, not_and]
  intro hs
  exact absurd hs (h tr htr)

lemma rowTriples_props (nsKb u1 u2 u3 u4 a b c : String) :
    ∀ tr ∈ rowTriples nsKb u1 u2 u3 u4 a b c,
      (tr.pred = RDFTerm.iri obsTimeIri → tr.obj = RDFTerm.lit a (some xsdDateTimeIri)) ∧
      (tr.pred = RDFTerm.iri ucoValueIri → tr.obj = RDFTerm.lit b none) ∧
      (tr.pred = RDFTerm.iri addressValueIri → tr.obj = RDFTerm.lit c none) ∧
      (tr.pred = RDFTerm.iri recordTypeIri → tr.obj = RDFTerm.lit "A" none) ∧
      (tr.pred = RDFTerm.iri kindOfRelationshipIri →
        tr.obj = RDFTerm.lit "Resolved_To" none) := by
  intro tr h
  simp only [rowTriples, List.mem_cons, List.not_mem_nil, or_false] at h
  rcases h with h|h|h|h|h|h|h|h|h|h|h|h|h|h|h <;> subst h <;>
    refine ⟨?_, ?_, ?_, ?_, ?_⟩ <;> intro hp <;> dsimp only at hp ⊢ <;>
      first
        | rfl
        | exact absurd hp (by decide)

/-! ## Lifting row-local facts to whole runs -/

lemma rowsOut_props (nsKb : String) (gen : Nat → String) :
    ∀ (vals : List (String × String × String)) (j : Nat),
      ∀ tr ∈ rowsOut nsKb gen j vals,
        (tr.pred = RDFTerm.iri obsTimeIri →
          ∃ s, tr.obj = RDFTerm.lit s (some xsdDateTimeIri)) ∧
        (tr.pred = RDFTerm.iri ucoValueIri → ∃ s, tr.obj = RDFTerm.lit s none) ∧
        (tr.pred = RDFTerm.iri addressValueIri → ∃ s, tr.obj = RDFTerm.lit s none) ∧
        (tr.pred = RDFTerm.iri recordTypeIri → tr.obj = RDFTerm.lit "A" none) ∧
        (tr.pred = RDFTerm.iri kindOfRelationshipIri →
          tr.obj = RDFTerm.lit "Resolved_To" none) := by
  intro vals
  induction vals with
  | nil => intro j tr h; simp [rowsOut] at h
  | cons v vs ih =>
    intro j tr h
    rw [rowsOut] at h
    rcases List.mem_append.mp h with hh | ht
    · obtain ⟨p1, p2, p3, p4, p5⟩ := rowTriples_props _ _ _ _ _ _ _ _ tr hh
      exact ⟨fun hp => ⟨_, p1 hp⟩, fun hp => ⟨_, p2 hp⟩, fun hp => ⟨_, p3 hp⟩, p4, p5⟩
    · exact ih (j+1) tr ht

lemma map_row_congr (nsKb u1 u2 u3 u4 : String) (r1 r2 : Row)
    (h : ∀ f ∈ accessedFields, List.lookup f r1 = List.lookup f r2) :
    map_row nsKb u1 u2 u3 u4 r1 = map_row nsKb u1 u2 u3 u4 r2 := by
  have h1 := h "observable:timeDateStamp" (by simp [accessedFields])
  have h2 := h "observable:DomainName" (by simp [accessedFields])
  have h3 := h "observable:IPv4Address" (by simp [accessedFields])
  unfold map_row getField
  rw [h1, h2, h3]

lemma processRows_congr (nsKb : String) (gen : Nat → String) :
    ∀ (rows1 rows2 : List Row) (j : Nat),
      List.Forall₂
        (fun r1 r2 => ∀ f ∈ accessedFields, List.lookup f r1 = List.lookup f r2)
        rows1 rows2 →
      processRows nsKb gen j rows1 = processRows nsKb gen j rows2 := by
  intro rows1
  induction rows1 with
  | nil => intro rows2 j h; cases h; rfl
  | cons r rs ih =>
    intro rows2 j h
    cases h with
    | cons hr hrest =>
      rw [processRows, processRows, map_row_congr _ _ _ _ _ _ _ hr, ih _ (j+1) hrest]

lemma process_dns_records_ok (rows : List Row) (nsKb : String) (g : RDFGraph)
    (gen : Nat → String) (ts : List Triple)
    (h : processRows nsKb gen 0 rows = Except.ok ts) :
    process_dns_records rows nsKb g gen = Except.ok
      { bindings := g.bindings ++ [("vocabulary", nsVocabulary)],
        triples := g.triples ++ ts } := by
  unfold process_dns_records
  rw [h]
  rfl

lemma process_dns_records_error (rows : List Row) (nsKb : String) (g : RDFGraph)
    (gen : Nat → String) (e : String)
    (h : processRows nsKb gen 0 rows = Except.error e) :
    process_dns_records rows nsKb g gen = Except.error e := by
  unfold process_dns_records
  rw [h]
  rfl

lemma runMain_error (a : Args) (gen : Nat → String) (rows : List Row)
    (guessFn : String → Option String) (venv : ValidationEnv) (e : String)
    (h : processRows a.kbIri gen 0 rows = Except.error e) :
    runMain a gen rows guessFn venv = { written := none, exitCode := 1, err := some e } := by
  simp only [runMain]
  rw [process_dns_records_error _ _ _ _ _ h]

lemma runMain_ok (a : Args) (gen : Nat → String) (rows : List Row)
    (guessFn : String → Option String) (venv : ValidationEnv) (ts : List Triple)
    (h : processRows a.kbIri gen 0 rows = Except.ok ts) :
    runMain a gen rows guessFn venv =
      { written := some
          ({ bindings := initialBindings a.kbLabel a.kbIri ++ [("vocabulary", nsVocabulary)],
             triples := ts },
           determineFormat a.outputFormat (guessFn a.outGraph)),
        exitCode := if a.validate && !(validate_case_output venv) then 1 else 0,
        err := none } := by
  simp only [runMain]
  rw [process_dns_records_ok _ _ _ _ _ h]
  cases hval : a.validate <;> cases hv : validate_case_output venv <;> simp [hval, hv]

/-! ## Claims -/

/-- Claim C1: for a well-formed input row (all four required fields present),
processing the row adds exactly the fixed bundle of fifteen statements — four
on the DNSRecord node (rdf:type, observationTime, recordType, isPassiveDNS),
two on the DomainNameFacet (rdf:type, value), two on the IPv4AddressFacet
(rdf:type, addressValue), two hasFacet edges from the DNSRecord to the two
facets, and five on the Relationship node (rdf:type, source, target,
isDirectional, kindOfRelationship) — no more and no fewer; the fifteen are
pairwise distinct, so none is absorbed by the rdflib set semantics. -/
theorem C1_row_bundle (nsKb u1 u2 u3 u4 : String) (row : Row)
    (ts dom ip kind : String)
    (hts : List.lookup "observable:timeDateStamp" row = some ts)
    (hdom : List.lookup "observable:DomainName" row = some dom)
    (hip : List.lookup "observable:IPv4Address" row = some ip)
    (hkind : List.lookup "core:kindOfRelationship" row = some kind) :
    ∃ l, map_row nsKb u1 u2 u3 u4 row = Except.ok l ∧
      l = [ ⟨RDFTerm.iri (mintId nsKb "DNSRecord-" u1), RDFTerm.iri rdfTypeIri,
              RDFTerm.iri dnsRecordClassIri⟩,
            ⟨RDFTerm.iri (mintId nsKb "DNSRecord-" u1), RDFTerm.iri obsTimeIri,
              RDFTerm.lit ts (some xsdDateTimeIri)⟩,
            ⟨RDFTerm.iri (mintId nsKb "DNSRecord-" u1), RDFTerm.iri recordTypeIri,
              RDFTerm.lit "A" none⟩,
            ⟨RDFTerm.iri (mintId nsKb "DNSRecord-" u1), RDFTerm.iri isPassiveDNSIri,
              RDFTerm.lit "true" (some xsdBooleanIri)⟩,
            ⟨RDFTerm.iri (mintId nsKb "DomainNameFacet-" u2), RDFTerm.iri rdfTypeIri,
              RDFTerm.iri domainNameFacetClassIri⟩,
            ⟨RDFTerm.iri (mintId nsKb "DomainNameFacet-" u2), RDFTerm.iri ucoValueIri,
              RDFTerm.lit dom none⟩,
            ⟨RDFTerm.iri (mintId nsKb "IPv4AddressFacet-" u3), RDFTerm.iri rdfTypeIri,
              RDFTerm.iri ipv4AddressFacetClassIri⟩,
            ⟨RDFTerm.iri (mintId nsKb "IPv4AddressFacet-" u3), RDFTerm.iri addressValueIri,
              RDFTerm.lit ip none⟩,
            ⟨RDFTerm.iri (mintId nsKb "DNSRecord-" u1), RDFTerm.iri hasFacetIri,
              RDFTerm.iri (mintId nsKb "DomainNameFacet-" u2)⟩,
            ⟨RDFTerm.iri (mintId nsKb "DNSRecord-" u1), RDFTerm.iri hasFacetIri,
              RDFTerm.iri (mintId nsKb "IPv4AddressFacet-" u3)⟩,
            ⟨RDFTerm.iri (mintId nsKb "Relationship-" u4), RDFTerm.iri rdfTypeIri,
              RDFTerm.iri relationshipClassIri⟩,
            ⟨RDFTerm.iri (mintId nsKb "Relationship-" u4), RDFTerm.iri sourceIri,
              RDFTerm.iri (mintId nsKb "DomainNameFacet-" u2)⟩,
            ⟨RDFTerm.iri (mintId nsKb "Relationship-" u4), RDFTerm.iri targetIri,
              RDFTerm.iri (mintId nsKb "IPv4AddressFacet-" u3)⟩,
            ⟨RDFTerm.iri (mintId nsKb "Relationship-" u4), RDFTerm.iri isDirectionalIri,
              RDFTerm.lit "true" (some xsdBooleanIri)⟩,
            ⟨RDFTerm.iri (mintId nsKb "Relationship-" u4), RDFTerm.iri kindOfRelationshipIri,
              RDFTerm.lit "Resolved_To" none⟩ ] ∧
      l.Nodup := by
  refine ⟨rowTriples nsKb u1 u2 u3 u4 ts dom ip, ?_, rfl, ?_⟩
  · unfold map_row
    rw [getField_of_some _ _ _ hts, except_bind_ok, getField_of_some _ _ _ hdom,
      except_bind_ok, getField_of_some _ _ _ hip, except_bind_ok]
  · have h23 : mintId nsKb "DomainNameFacet-" u2 ≠ mintId nsKb "IPv4AddressFacet-" u3 :=
      mintId_tag_ne nsKb u2 u3 1 2 (by norm_num) (by norm_num) (by norm_num)
    simp [rowTriples, rdfTypeIri, obsTimeIri, recordTypeIri, isPassiveDNSIri,
      dnsRecordClassIri, domainNameFacetClassIri, ipv4AddressFacetClassIri,
      relationshipClassIri, ucoValueIri, addressValueIri, hasFacetIri, sourceIri,
      targetIri, isDirectionalIri, kindOfRelationshipIri, xsdDateTimeIri, xsdBooleanIri,
      nsRdf, nsUcoCore, nsUcoObservable, nsXsd, h23]

/-- Witness for C1 at the spec's example row under the `gen0` uuid stream. -/
theorem C1_row_bundle_witness :
    (List.lookup "observable:timeDateStamp" row0 = some "2024-01-15T10:30:00Z" ∧
     List.lookup "observable:DomainName" row0 = some "evil.org" ∧
     List.lookup "observable:IPv4Address" row0 = some "203.0.113.5" ∧
     List.lookup "core:kindOfRelationship" row0 = some "resolves to") ∧
    ∃ l, map_row "http://example.org/kb/" "0" "1" "2" "3" row0 = Except.ok l ∧
      l = out0 ∧ l.Nodup :=
  ⟨⟨by decide, by decide, by decide, by decide⟩,
    C1_row_bundle "http://example.org/kb/" "0" "1" "2" "3" row0
      "2024-01-15T10:30:00Z" "evil.org" "203.0.113.5" "resolves to"
      (by decide) (by decide) (by decide) (by decide)⟩

/-- Claim C2 counterexample: a CSV whose single row lacks the required
`core:kindOfRelationship` column.  The claim says the run must abort with an
error naming the missing field before serializing; in the code that column is
never subscripted, so the run completes, writes the output and exits 0. -/
theorem C2_counterexample :
    List.lookup "core:kindOfRelationship" rowMissingKind = none ∧
    "core:kindOfRelationship" ∈ requiredFields ∧
    (runMain args0 gen0 [rowMissingKind] noGuess venvAllOk).written.isSome = true ∧
    (runMain args0 gen0 [rowMissingKind] noGuess venvAllOk).exitCode = 0 ∧
    (runMain args0 gen0 [rowMissingKind] noGuess venvAllOk).err = none := by
  decide

/-- Claim C2 as amended: if any row lacks one of the three columns the loop
body actually reads (`observable:timeDateStamp`, `observable:DomainName`,
`observable:IPv4Address`), the run aborts with the `KeyError` naming a
missing field and nothing is serialized (the destination is never written);
a missing `core:kindOfRelationship` column is silently accepted. -/
theorem C2_abort_on_missing_field (a : Args) (gen : Nat → String) (rows : List Row)
    (guessFn : String → Option String) (venv : ValidationEnv)
    (h : ∃ r ∈ rows, ∃ f ∈ accessedFields, List.lookup f r = none) :
    ∃ e, runMain a gen rows guessFn venv =
        { written := none, exitCode := 1, err := some e } ∧
      e ∈ accessedFields ∧ ∃ r ∈ rows, List.lookup e r = none := by
  obtain ⟨e, he⟩ := processRows_error_of_missing a.kbIri gen rows 0 h
  obtain ⟨hf, hr⟩ := processRows_error_mem a.kbIri gen rows 0 e he
  exact ⟨e, runMain_error a gen rows guessFn venv e he, hf, hr⟩

/-- Witness for the amended C2: a row missing `observable:timeDateStamp`. -/
theorem C2_abort_witness :
    (∃ r ∈ [rowMissingTime], ∃ f ∈ accessedFields, List.lookup f r = none) ∧
    ∃ e, runMain args0 gen0 [rowMissingTime] noGuess venvAllOk =
        { written := none, exitCode := 1, err := some e } ∧
      e ∈ accessedFields ∧ ∃ r ∈ [rowMissingTime], List.lookup e r = none :=
  ⟨by decide,
    C2_abort_on_missing_field args0 gen0 [rowMissingTime] noGuess venvAllOk (by decide)⟩

/-- Claim C3: the `core:kindOfRelationship` column never influences the
output.  Every emitted kindOfRelationship statement carries the fixed plain
literal "Resolved_To", and two row lists that agree on the three columns the
loop reads (so in particular two inputs differing only in their
`core:kindOfRelationship` cells) produce identical results under the same
uuid stream. -/
theorem C3_kind_fixed (nsKb : String) (gen : Nat → String) (rows1 rows2 : List Row)
    (h : List.Forall₂
      (fun r1 r2 => ∀ f ∈ accessedFields, List.lookup f r1 = List.lookup f r2)
      rows1 rows2) :
    processRows nsKb gen 0 rows1 = processRows nsKb gen 0 rows2 ∧
    ∀ ts, processRows nsKb gen 0 rows1 = Except.ok ts →
      ∀ tr ∈ ts, tr.pred = RDFTerm.iri kindOfRelationshipIri →
        tr.obj = RDFTerm.lit "Resolved_To" none := by
  refine ⟨processRows_congr nsKb gen rows1 rows2 0 h, ?_⟩
  intro ts hok tr htr hp
  obtain ⟨vals, _, hshape⟩ := processRows_ok_shape nsKb gen rows1 0 ts hok
  subst hshape
  exact (rowsOut_props nsKb gen vals 0 tr htr).2.2.2.2 hp

/-- Witness for C3: `row0` and `row0kindB` differ exactly in the
`core:kindOfRelationship` cell and process identically. -/
theorem C3_kind_fixed_witness :
    (List.Forall₂
      (fun r1 r2 => ∀ f ∈ accessedFields, List.lookup f r1 = List.lookup f r2)
      [row0] [row0kindB]) ∧
    (processRows "http://example.org/kb/" gen0 0 [row0] =
      processRows "http://example.org/kb/" gen0 0 [row0kindB] ∧
    ∀ ts, processRows "http://example.org/kb/" gen0 0 [row0] = Except.ok ts →
      ∀ tr ∈ ts, tr.pred = RDFTerm.iri kindOfRelationshipIri →
        tr.obj = RDFTerm.lit "Resolved_To" none) :=
  ⟨List.Forall₂.cons (by decide) List.Forall₂.nil,
    C3_kind_fixed "http://example.org/kb/" gen0 [row0] [row0kindB]
      (List.Forall₂.cons (by decide) List.Forall₂.nil)⟩

/-- Claim C10: `validate_case_output` is total over its oracle environment —
every exception raised while parsing the data graph, fetching or parsing
either ontology URL, or running the SHACL validation is caught and yields
`false`; it returns `true` exactly when all four external steps succeed and
the SHACL verdict is conformance. -/
theorem C10_validate_total (env : ValidationEnv) :
    validate_case_output env = true ↔
      (env.dataParse = Except.ok () ∧ env.coreFetch = Except.ok () ∧
       env.observableFetch = Except.ok () ∧ env.shaclRun = Except.ok true) := by
  rcases env with ⟨d, c, o, s⟩
  unfold validate_case_output
  cases d <;> cases c <;> cases o <;> cases s <;> simp

/-- Claim C6 counterexample: with `--validate` not set and a row missing the
`observable:timeDateStamp` column, the process still exits non-zero (the
uncaught `KeyError` aborts the interpreter), refuting "non-zero exactly when
`--validate` is set and validation fails or cannot be performed". -/
theorem C6_counterexample :
    args0.validate = false ∧
    (runMain args0 gen0 [rowMissingTime] noGuess venvAllOk).exitCode = 1 := by
  decide

/-- Claim C6 as amended: in a run whose row processing succeeds, the exit
status is non-zero exactly when `--validate` is set and validation reports
non-conformance or cannot be performed; moreover any failure of an external
validation step (data parse, either ontology fetch, or the SHACL run) makes
`validate_case_output` report `false`, never conformance.  Runs aborted
before serialization also exit non-zero, which the original claim missed. -/
theorem C6_exit_code (a : Args) (gen : Nat → String) (rows : List Row)
    (guessFn : String → Option String) (venv : ValidationEnv) (ts : List Triple)
    (hok : processRows a.kbIri gen 0 rows = Except.ok ts) :
    ((runMain a gen rows guessFn venv).exitCode ≠ 0 ↔
      (a.validate = true ∧ validate_case_output venv = false)) ∧
    ((venv.dataParse ≠ Except.ok () ∨ venv.coreFetch ≠ Except.ok () ∨
      venv.observableFetch ≠ Except.ok () ∨ ∀ b, venv.shaclRun ≠ Except.ok b) →
      validate_case_output venv = false) := by
  constructor
  · rw [runMain_ok a gen rows guessFn venv ts hok]
    cases hval : a.validate <;> cases hv : validate_case_output venv <;> simp [hval, hv]
  · rcases venv with ⟨d, c, o, s⟩
    unfold validate_case_output
    cases d <;> cases c <;> cases o <;> cases s <;> simp

/-- Witness for the amended C6: an empty CSV, `--validate`, and a failed
ontology fetch: the run exits non-zero. -/
theorem C6_exit_code_witness :
    (processRows argsValidate.kbIri gen0 0 [] = Except.ok []) ∧
    (((runMain argsValidate gen0 [] noGuess venvNetFail).exitCode ≠ 0 ↔
      (argsValidate.validate = true ∧ validate_case_output venvNetFail = false)) ∧
    ((venvNetFail.dataParse ≠ Except.ok () ∨ venvNetFail.coreFetch ≠ Except.ok () ∨
      venvNetFail.observableFetch ≠ Except.ok () ∨
      ∀ b, venvNetFail.shaclRun ≠ Except.ok b) →
      validate_case_output venvNetFail = false)) :=
  ⟨by decide, C6_exit_code argsValidate gen0 [] noGuess venvNetFail [] (by decide)⟩

/-- Claim C7 counterexample: `--output-format ""` (the flag given with an
empty value).  The claim says the given value is used; Python's `or` treats
the empty string as falsy, so the run serializes as "json-ld" instead. -/
theorem C7_counterexample :
    argsEmptyFmt.outputFormat = some "" ∧
    (runMain argsEmptyFmt gen0 [] turtleGuess venvAllOk).written.map Prod.snd =
      some "json-ld" ∧
    "json-ld" ≠ "" := by
  decide

/-- Claim C7 as amended: the serialization format is the value of
`--output-format` whenever that flag is given a non-empty value; otherwise
the format guessed from the output file name when that guess yields a
non-empty format; and "json-ld" when the flag is absent and inference yields
nothing.  An empty explicit value falls back to "json-ld" (Python `or`
treats "" as falsy), which the original claim missed. -/
theorem C7_format_selection (a : Args) (gen : Nat → String) (rows : List Row)
    (guessFn : String → Option String) (venv : ValidationEnv) (ts : List Triple)
    (hok : processRows a.kbIri gen 0 rows = Except.ok ts) :
    ∃ fmt, (runMain a gen rows guessFn venv).written.map Prod.snd = some fmt ∧
      (∀ s, a.outputFormat = some s → s ≠ "" → fmt = s) ∧
      (a.outputFormat = some "" → fmt = "json-ld") ∧
      (a.outputFormat = none → ∀ s, guessFn a.outGraph = some s → s ≠ "" → fmt = s) ∧
      (a.outputFormat = none → guessFn a.outGraph = none → fmt = "json-ld") := by
  refine ⟨determineFormat a.outputFormat (guessFn a.outGraph), ?_, ?_, ?_, ?_, ?_⟩
  · rw [runMain_ok a gen rows guessFn venv ts hok]
    rfl
  · intro s hs hne
    simp [determineFormat, hs, hne]
  · intro hs
    simp [determineFormat, hs]
  · intro hn s hg hne
    simp [determineFormat, hn, hg, hne]
  · intro hn hg
    simp [determineFormat, hn, hg]

/-- Witness for the amended C7: default command line, no guess, empty CSV. -/
theorem C7_format_selection_witness :
    (processRows args0.kbIri gen0 0 [] = Except.ok []) ∧
    ∃ fmt, (runMain args0 gen0 [] noGuess venvAllOk).written.map Prod.snd = some fmt ∧
      (∀ s, args0.outputFormat = some s → s ≠ "" → fmt = s) ∧
      (args0.outputFormat = some "" → fmt = "json-ld") ∧
      (args0.outputFormat = none → ∀ s, noGuess args0.outGraph = some s → s ≠ "" → fmt = s) ∧
      (args0.outputFormat = none → noGuess args0.outGraph = none → fmt = "json-ld") :=
  ⟨by decide, C7_format_selection args0 gen0 [] noGuess venvAllOk [] (by decide)⟩

/-- Claim C9: the knowledge-base prefix label is serialization metadata only.
Two runs identical except for the `--kb-prefix` label (same CSV content, same
`--kb-prefix-iri`, same uuid stream) produce the same semantic triples, the
same chosen format, the same exit code and the same error — only the
namespace-binding table of the written graph can differ. -/
theorem C9_label_independence (l1 l2 kbIri : String) (outFmt : Option String)
    (outG csvPath : String) (val : Bool) (gen : Nat → String) (rows : List Row)
    (guessFn : String → Option String) (venv : ValidationEnv) :
    ((runMain ⟨l1, kbIri, outFmt, outG, csvPath, val⟩ gen rows guessFn venv).written.map
        (fun w => (w.1.triples, w.2)) =
      (runMain ⟨l2, kbIri, outFmt, outG, csvPath, val⟩ gen rows guessFn venv).written.map
        (fun w => (w.1.triples, w.2))) ∧
    (runMain ⟨l1, kbIri, outFmt, outG, csvPath, val⟩ gen rows guessFn venv).exitCode =
      (runMain ⟨l2, kbIri, outFmt, outG, csvPath, val⟩ gen rows guessFn venv).exitCode ∧
    (runMain ⟨l1, kbIri, outFmt, outG, csvPath, val⟩ gen rows guessFn venv).err =
      (runMain ⟨l2, kbIri, outFmt, outG, csvPath, val⟩ gen rows guessFn venv).err := by
  cases hp : processRows kbIri gen 0 rows with
  | error e =>
    rw [runMain_error _ _ _ _ _ _ hp, runMain_error _ _ _ _ _ _ hp]
    exact ⟨rfl, rfl, rfl⟩
  | ok ts =>
    rw [runMain_ok _ _ _ _ _ _ hp, runMain_ok _ _ _ _ _ _ hp]
    exact ⟨rfl, rfl, rfl⟩

/-- Claim C4: assuming the uuid generator never repeats a value among the
`4·N` draws of the run, the minted node identifiers — four per row, one each
for the DNSRecord, DomainNameFacet, IPv4AddressFacet and Relationship nodes —
are pairwise distinct across the whole graph for any number of rows, however
the rows repeat domain/IP pairs (`mintedIds` carries no dependence on cell
values), and every subject of every emitted statement is one of them. -/
theorem C4_unique_ids (nsKb : String) (gen : Nat → String) (rows : List Row)
    (hgen : ∀ i, i < 4 * rows.length → ∀ j, j < 4 * rows.length →
      gen i = gen j → i = j) :
    (mintedIds nsKb gen rows.length).Nodup ∧
    (mintedIds nsKb gen rows.length).length = 4 * rows.length ∧
    ∀ ts, processRows nsKb gen 0 rows = Except.ok ts →
      ∀ tr ∈ ts, tr.subj ∈ (mintedIds nsKb gen rows.length).map RDFTerm.iri := by
  refine ⟨mintedIds_nodup nsKb gen rows.length hgen,
    mintedIds_length nsKb gen rows.length, ?_⟩
  intro ts hok tr htr
  obtain ⟨vals, hlen, hshape⟩ := processRows_ok_shape nsKb gen rows 0 ts hok
  subst hshape
  obtain ⟨m, hm1, hm2, hm3⟩ := rowsOut_subj nsKb gen vals 0 tr htr
  rw [hm3, mintedIds_eq_map]
  have hmr : m < 4 * rows.length := by omega
  exact List.mem_map_of_mem RDFTerm.iri
    (List.mem_map_of_mem (mintAt nsKb gen) (List.mem_range.mpr hmr))

/-- Witness for C4: two rows repeating nothing but drawing eight distinct
uuids from `gen0`. -/
theorem C4_unique_ids_witness :
    (∀ i, i < 4 * [row0, row1].length → ∀ j, j < 4 * [row0, row1].length →
      gen0 i = gen0 j → i = j) ∧
    ((mintedIds "http://example.org/kb/" gen0 [row0, row1].length).Nodup ∧
    (mintedIds "http://example.org/kb/" gen0 [row0, row1].length).length =
      4 * [row0, row1].length ∧
    ∀ ts, processRows "http://example.org/kb/" gen0 0 [row0, row1] = Except.ok ts →
      ∀ tr ∈ ts,
        tr.subj ∈ (mintedIds "http://example.org/kb/" gen0 [row0, row1].length).map
          RDFTerm.iri) :=
  ⟨by decide, C4_unique_ids "http://example.org/kb/" gen0 [row0, row1] (by decide)⟩

/-- Claim C5: in the graph of a successful run (uuids pairwise fresh), each
row's DNSRecord node carries exactly two hasFacet statements — one to that
row's DomainNameFacet and one to its IPv4AddressFacet, never zero, one or
more — and each row's Relationship node carries exactly one source statement
(to the row's domain facet) and exactly one target statement (to the row's IP
facet); moreover there is a cut of the insertion-ordered statement list that
has both facets' rdf:type statements before it and every statement about the
Relationship node after it: both endpoints were added to the graph before any
Relationship triple.  Every DNSRecord/Relationship node of the graph arises
this way from some row, by `C4_unique_ids`-style subject accounting. -/
theorem C5_facet_edges (nsKb : String) (gen : Nat → String) (rows : List Row)
    (hgen : ∀ i, i < 4 * rows.length → ∀ j, j < 4 * rows.length →
      gen i = gen j → i = j) :
    ∀ ts, processRows nsKb gen 0 rows = Except.ok ts →
    ∀ i, i < rows.length →
      (ts.filter (fun tr => decide
          (tr.subj = RDFTerm.iri (mintId nsKb "DNSRecord-" (gen (4*i))) ∧
           tr.pred = RDFTerm.iri hasFacetIri)) =
        [⟨RDFTerm.iri (mintId nsKb "DNSRecord-" (gen (4*i))), RDFTerm.iri hasFacetIri,
           RDFTerm.iri (mintId nsKb "DomainNameFacet-" (gen (4*i+1)))⟩,
         ⟨RDFTerm.iri (mintId nsKb "DNSRecord-" (gen (4*i))), RDFTerm.iri hasFacetIri,
           RDFTerm.iri (mintId nsKb "IPv4AddressFacet-" (gen (4*i+2)))⟩]) ∧
      (ts.filter (fun tr => decide
          (tr.subj = RDFTerm.iri (mintId nsKb "Relationship-" (gen (4*i+3))) ∧
           tr.pred = RDFTerm.iri sourceIri)) =
        [⟨RDFTerm.iri (mintId nsKb "Relationship-" (gen (4*i+3))), RDFTerm.iri sourceIri,
           RDFTerm.iri (mintId nsKb "DomainNameFacet-" (gen (4*i+1)))⟩]) ∧
      (ts.filter (fun tr => decide
          (tr.subj = RDFTerm.iri (mintId nsKb "Relationship-" (gen (4*i+3))) ∧
           tr.pred = RDFTerm.iri targetIri)) =
        [⟨RDFTerm.iri (mintId nsKb "Relationship-" (gen (4*i+3))), RDFTerm.iri targetIri,
           RDFTerm.iri (mintId nsKb "IPv4AddressFacet-" (gen (4*i+2)))⟩]) ∧
      ∃ m, m ≤ ts.length ∧
        (⟨RDFTerm.iri (mintId nsKb "DomainNameFacet-" (gen (4*i+1))),
           RDFTerm.iri rdfTypeIri, RDFTerm.iri domainNameFacetClassIri⟩ : Triple) ∈
          ts.take m ∧
        (⟨RDFTerm.iri (mintId nsKb "IPv4AddressFacet-" (gen (4*i+2))),
           RDFTerm.iri rdfTypeIri, RDFTerm.iri ipv4AddressFacetClassIri⟩ : Triple) ∈
          ts.take m ∧
        ∀ tr ∈ ts.take m,
          tr.subj ≠ RDFTerm.iri (mintId nsKb "Relationship-" (gen (4*i+3))) := by
  intro ts hok i hi
  obtain ⟨vals, hlen, hshape⟩ := processRows_ok_shape nsKb gen rows 0 ts hok
  have hiv : i < vals.length := by omega
  have hdec := rowsOut_decomp nsKb gen vals 0 i hiv
  simp only [Nat.zero_add] at hdec
  subst hshape
  rw [hdec]
  have hgen' : ∀ a, a < 4 * vals.length → ∀ b, b < 4 * vals.length →
      gen a = gen b → a = b := by rw [hlen]; exact hgen
  have hNe : ∀ (m k : Nat), m < 4*vals.length → k < 4*vals.length → m ≠ k →
      ∀ tr : Triple, tr.subj = RDFTerm.iri (mintAt nsKb gen m) →
        tr.subj ≠ RDFTerm.iri (mintAt nsKb gen k) := by
    intro m k hm hk hne tr hsub heq
    rw [hsub] at heq
    injection heq with hs
    exact hne (mintAt_inj nsKb gen (4*vals.length) hgen' m k hm hk hs)
  have hPreNe : ∀ (k : Nat), 4*i ≤ k → k < 4*(i+1) →
      ∀ tr ∈ rowsOut nsKb gen 0 (vals.take i),
        tr.subj ≠ RDFTerm.iri (mintAt nsKb gen k) := by
    intro k hk1 hk2 tr htr
    obtain ⟨m, _, hm2, hm3⟩ := rowsOut_subj nsKb gen (vals.take i) 0 tr htr
    have hti : (vals.take i).length = i := by rw [List.length_take]; omega
    exact hNe m k (by omega) (by omega) (by omega) tr hm3
  have hSufNe : ∀ (k : Nat), 4*i ≤ k → k < 4*(i+1) →
      ∀ tr ∈ rowsOut nsKb gen (i+1) (vals.drop (i+1)),
        tr.subj ≠ RDFTerm.iri (mintAt nsKb gen k) := by
    intro k hk1 hk2 tr htr
    obtain ⟨m, hm1, hm2, hm3⟩ := rowsOut_subj nsKb gen (vals.drop (i+1)) (i+1) tr htr
    have htd : (vals.drop (i+1)).length = vals.length - (i+1) := by
      rw [List.length_drop]
    exact hNe m k (by omega) (by omega) (by omega) tr hm3
  have hnilPreDns : ∀ P : RDFTerm, (rowsOut nsKb gen 0 (vals.take i)).filter
      (fun tr => decide (tr.subj = RDFTerm.iri (mintId nsKb "DNSRecord-" (gen (4*i))) ∧
        tr.pred = P)) = [] := by
    intro P
    apply filter_eq_nil_of_subj_ne
    intro tr htr
    rw [← mintAt_4i]
    exact hPreNe (4*i) (le_refl _) (by omega) tr htr
  have hnilSufDns : ∀ P : RDFTerm, (rowsOut nsKb gen (i+1) (vals.drop (i+1))).filter
      (fun tr => decide (tr.subj = RDFTerm.iri (mintId nsKb "DNSRecord-" (gen (4*i))) ∧
        tr.pred = P)) = [] := by
    intro P
    apply filter_eq_nil_of_subj_ne
    intro tr htr
    rw [← mintAt_4i]
    exact hSufNe (4*i) (le_refl _) (by omega) tr htr
  have hnilPreRel : ∀ P : RDFTerm, (rowsOut nsKb gen 0 (vals.take i)).filter
      (fun tr => decide (tr.subj = RDFTerm.iri (mintId nsKb "Relationship-" (gen (4*i+3))) ∧
        tr.pred = P)) = [] := by
    intro P
    apply filter_eq_nil_of_subj_ne
    intro tr htr
    rw [← mintAt_4i3]
    exact hPreNe (4*i+3) (by omega) (by omega) tr htr
  have hnilSufRel : ∀ P : RDFTerm, (rowsOut nsKb gen (i+1) (vals.drop (i+1))).filter
      (fun tr => decide (tr.subj = RDFTerm.iri (mintId nsKb "Relationship-" (gen (4*i+3))) ∧
        tr.pred = P)) = [] := by
    intro P
    apply filter_eq_nil_of_subj_ne
    intro tr htr
    rw [← mintAt_4i3]
    exact hSufNe (4*i+3) (by omega) (by omega) tr htr
  refine ⟨?_, ?_, ?_, ?_⟩
  · rw [List.filter_append, List.filter_append, hnilPreDns, hnilSufDns,
      row_filter_hasFacet]
    simp
  · rw [List.filter_append, List.filter_append, hnilPreRel, hnilSufRel,
      row_filter_source]
    simp
  · rw [List.filter_append, List.filter_append, hnilPreRel, hnilSufRel,
      row_filter_target]
    simp
  · refine ⟨(rowsOut nsKb gen 0 (vals.take i)).length + 10, ?_, ?_, ?_, ?_⟩
    · simp only [List.length_append]
      have h15 : (rowTriples nsKb (gen (4*i)) (gen (4*i+1)) (gen (4*i+2)) (gen (4*i+3))
          (vals.get ⟨i, hiv⟩).1 (vals.get ⟨i, hiv⟩).2.1 (vals.get ⟨i, hiv⟩).2.2).length
          = 15 := rfl
      omega
    all_goals rw [List.append_assoc, List.take_append]
    · apply List.mem_append_right
      simp [rowTriples, List.cons_append, List.take_succ_cons]
    · apply List.mem_append_right
      simp [rowTriples, List.cons_append, List.take_succ_cons]
    · intro tr htr
      rcases List.mem_append.mp htr with hp | hm
      · rw [← mintAt_4i3]
        exact hPreNe (4*i+3) (by omega) (by omega) tr hp
      · simp only [rowTriples, List.cons_append, List.take_succ_cons, List.take_zero,
          List.mem_cons, List.not_mem_nil, or_false] at hm
        rcases hm with h|h|h|h|h|h|h|h|h|h <;> subst h <;> dsimp only <;>
          (intro heq
           injection heq with hs
           first
             | exact mintId_tag_ne nsKb _ _ 0 3 (by norm_num) (by norm_num)
                 (by norm_num) hs
             | exact mintId_tag_ne nsKb _ _ 1 3 (by norm_num) (by norm_num)
                 (by norm_num) hs
             | exact mintId_tag_ne nsKb _ _ 2 3 (by norm_num) (by norm_num)
                 (by norm_num) hs)

/-- Witness for C5 at a concrete two-row run under `gen0`. -/
theorem C5_facet_edges_witness :
    (∀ i, i < 4 * [row0, row1].length → ∀ j, j < 4 * [row0, row1].length →
      gen0 i = gen0 j → i = j) ∧
    (∀ ts, processRows "http://example.org/kb/" gen0 0 [row0, row1] = Except.ok ts →
    ∀ i, i < [row0, row1].length →
      (ts.filter (fun tr => decide
          (tr.subj = RDFTerm.iri (mintId "http://example.org/kb/" "DNSRecord-" (gen0 (4*i))) ∧
           tr.pred = RDFTerm.iri hasFacetIri)) =
        [⟨RDFTerm.iri (mintId "http://example.org/kb/" "DNSRecord-" (gen0 (4*i))),
           RDFTerm.iri hasFacetIri,
           RDFTerm.iri (mintId "http://example.org/kb/" "DomainNameFacet-" (gen0 (4*i+1)))⟩,
         ⟨RDFTerm.iri (mintId "http://example.org/kb/" "DNSRecord-" (gen0 (4*i))),
           RDFTerm.iri hasFacetIri,
           RDFTerm.iri (mintId "http://example.org/kb/" "IPv4AddressFacet-" (gen0 (4*i+2)))⟩]) ∧
      (ts.filter (fun tr => decide
          (tr.subj = RDFTerm.iri (mintId "http://example.org/kb/" "Relationship-" (gen0 (4*i+3))) ∧
           tr.pred = RDFTerm.iri sourceIri)) =
        [⟨RDFTerm.iri (mintId "http://example.org/kb/" "Relationship-" (gen0 (4*i+3))),
           RDFTerm.iri sourceIri,
           RDFTerm.iri (mintId "http://example.org/kb/" "DomainNameFacet-" (gen0 (4*i+1)))⟩]) ∧
      (ts.filter (fun tr => decide
          (tr.subj = RDFTerm.iri (mintId "http://example.org/kb/" "Relationship-" (gen0 (4*i+3))) ∧
           tr.pred = RDFTerm.iri targetIri)) =
        [⟨RDFTerm.iri (mintId "http://example.org/kb/" "Relationship-" (gen0 (4*i+3))),
           RDFTerm.iri targetIri,
           RDFTerm.iri (mintId "http://example.org/kb/" "IPv4AddressFacet-" (gen0 (4*i+2)))⟩]) ∧
      ∃ m, m ≤ ts.length ∧
        (⟨RDFTerm.iri (mintId "http://example.org/kb/" "DomainNameFacet-" (gen0 (4*i+1))),
           RDFTerm.iri rdfTypeIri, RDFTerm.iri domainNameFacetClassIri⟩ : Triple) ∈
          ts.take m ∧
        (⟨RDFTerm.iri (mintId "http://example.org/kb/" "IPv4AddressFacet-" (gen0 (4*i+2))),
           RDFTerm.iri rdfTypeIri, RDFTerm.iri ipv4AddressFacetClassIri⟩ : Triple) ∈
          ts.take m ∧
        ∀ tr ∈ ts.take m,
          tr.subj ≠ RDFTerm.iri (mintId "http://example.org/kb/" "Relationship-" (gen0 (4*i+3)))) :=
  ⟨by decide, C5_facet_edges "http://example.org/kb/" gen0 [row0, row1] (by decide)⟩

/-- Claim C8: in every successful run, every observationTime statement
carries a literal typed `xsd:dateTime`, while every domain-name value,
IP addressValue, recordType and kindOfRelationship statement carries a plain
(untyped) string literal — "A" for recordType and "Resolved_To" for
kindOfRelationship. -/
theorem C8_literal_typing (nsKb : String) (gen : Nat → String) (rows : List Row)
    (ts : List Triple) (hok : processRows nsKb gen 0 rows = Except.ok ts) :
    ∀ tr ∈ ts,
      (tr.pred = RDFTerm.iri obsTimeIri →
        ∃ s, tr.obj = RDFTerm.lit s (some xsdDateTimeIri)) ∧
      (tr.pred = RDFTerm.iri ucoValueIri → ∃ s, tr.obj = RDFTerm.lit s none) ∧
      (tr.pred = RDFTerm.iri addressValueIri → ∃ s, tr.obj = RDFTerm.lit s none) ∧
      (tr.pred = RDFTerm.iri recordTypeIri → tr.obj = RDFTerm.lit "A" none) ∧
      (tr.pred = RDFTerm.iri kindOfRelationshipIri →
        tr.obj = RDFTerm.lit "Resolved_To" none) := by
  intro tr htr
  obtain ⟨vals, _, hshape⟩ := processRows_ok_shape nsKb gen rows 0 ts hok
  subst hshape
  exact rowsOut_props nsKb gen vals 0 tr htr

/-- Witness for C8 at the spec's example row under `gen0`. -/
theorem C8_literal_typing_witness :
    (processRows "http://example.org/kb/" gen0 0 [row0] = Except.ok out0) ∧
    ∀ tr ∈ out0,
      (tr.pred = RDFTerm.iri obsTimeIri →
        ∃ s, tr.obj = RDFTerm.lit s (some xsdDateTimeIri)) ∧
      (tr.pred = RDFTerm.iri ucoValueIri → ∃ s, tr.obj = RDFTerm.lit s none) ∧
      (tr.pred = RDFTerm.iri addressValueIri → ∃ s, tr.obj = RDFTerm.lit s none) ∧
      (tr.pred = RDFTerm.iri recordTypeIri → tr.obj = RDFTerm.lit "A" none) ∧
      (tr.pred = RDFTerm.iri kindOfRelationshipIri →
        tr.obj = RDFTerm.lit "Resolved_To" none) :=
  ⟨by decide, C8_literal_typing "http://example.org/kb/" gen0 [row0] out0 (by decide)⟩
